import Mathlib

/-! Shallow embedding of the mcp-server-fvwm3 dispatch layer: the resource,
tool and prompt catalogs, the `executeTool`, `readResource` and `getPrompt`
routers, and the semantics of the JavaScript string operations they use.
File reads and external-process invocations are modelled by an oracle
(`World`); `readResource` additionally records the list of adapter calls it
makes, so that claims about "no adapter runs" and "no retry" are statable. -/

/-- A JavaScript argument value as the server receives it over the protocol:
clients send strings or numbers in the argument mapping. -/
inductive Val where
  | vstr (s : String)
  | vnum (n : Int)
deriving DecidableEq, Repr

/-- The argument mapping of a call-tool or get-prompt request: a partial map
from property name to value; `none` means the property is absent, which
JavaScript destructuring turns into `undefined`. -/
def Args : Type := String → Option Val

/-- A thrown JavaScript exception: an `Error` or a `TypeError` with its
message text. -/
inductive JsErr where
  | jsError (msg : String)
  | jsTypeError (msg : String)
deriving DecidableEq, Repr

/-- Template-literal interpolation of a thrown value, as in
the source's string templates that interpolate the caught error. -/
def JsErr.display : JsErr → String
  | .jsError m => "Error: " ++ m
  | .jsTypeError m => "TypeError: " ++ m

/-- The failure value `execAsync` rejects with: the error message and the
captured stderr of the child process. -/
structure ExecErr where
  message : String
  stderr : String
deriving DecidableEq, Repr

/-- Outcome of one `execAsync` invocation. -/
inductive ExecOutcome where
  | success (stdout stderr : String)
  | failure (e : ExecErr)
deriving DecidableEq, Repr

/-- The oracle for the two external collaborators (process execution and
file reads) plus the home directory `homedir()` returns. -/
structure World where
  run : String → ExecOutcome
  fsRead : String → Except String String
  home : String

/-- The JavaScript whitespace class used by `String.prototype.trim` and by
the regex class `\s`. -/
def jsIsSpace (c : Char) : Bool :=
  c = ' ' || c = '\t' || c = '\n' || c = '\x0b' || c = '\x0c' || c = '\x0d' ||
  c.toNat = 0xa0 || c.toNat = 0x1680 ||
  (0x2000 ≤ c.toNat && c.toNat ≤ 0x200a) ||
  c.toNat = 0x2028 || c.toNat = 0x2029 || c.toNat = 0x202f ||
  c.toNat = 0x205f || c.toNat = 0x3000 || c.toNat = 0xfeff

/-- JavaScript `String.prototype.trim`: drop leading and trailing
whitespace. -/
def jsTrim (s : String) : String :=
  ⟨((s.data.dropWhile jsIsSpace).reverse.dropWhile jsIsSpace).reverse⟩

/-- Split a character list at every occurrence of a separator character. -/
def splitChar (sep : Char) (l : List Char) : List (List Char) :=
  l.foldr
    (fun c acc =>
      match acc with
      | [] => [[c]]
      | cur :: rest => if c = sep then [] :: cur :: rest else (c :: cur) :: rest)
    [[]]

/-- JavaScript `String.prototype.split` with a one-character separator, the
only form the source uses (`split(",")`, `split("\n")`). -/
def jsSplitChar (sep : Char) (s : String) : List String :=
  (splitChar sep s.data).map (fun l => ⟨l⟩)

/-- Template-literal interpolation of a possibly-absent argument value:
`undefined` prints as the text "undefined", numbers print in decimal. -/
def tmplVal : Option Val → String
  | none => "undefined"
  | some (.vstr s) => s
  | some (.vnum n) => toString n

/-- JavaScript truthiness of a possibly-absent argument value: `undefined`,
the empty string and the number 0 are falsy. -/
def truthy : Option Val → Bool
  | none => false
  | some (.vstr s) => s ≠ ""
  | some (.vnum n) => n ≠ 0

/-- JavaScript `String.prototype.includes`: substring test. -/
def strContains (s pat : String) : Bool :=
  (List.range (s.data.length + 1)).any
    (fun i => ((s.data.drop i).take pat.data.length) == pat.data)

/-- The source's `command.replace(/"/g, '\\"')`: escape every double quote
with a backslash. -/
def escQuotes (s : String) : String :=
  String.join (s.data.map (fun c => if c = '\"' then "\\\"" else String.mk [c]))

/-- `path.join` as the source uses it: home directory joined with a
relative path. -/
def pjoin (a b : String) : String := a ++ "/" ++ b

/-- One content block of a tool result: `{type: "text", text: ...}`. -/
structure Block where
  type : String
  text : String
deriving DecidableEq, Repr

/-- The envelope `executeTool` returns: content blocks plus the error flag,
which the source omits (hence `false`) on success paths. -/
structure ToolResult where
  content : List Block
  isError : Bool := false
deriving DecidableEq, Repr

/-- The source's recurring success shape
`{content: [{type: "text", text: s}]}`. -/
def textResult (s : String) : ToolResult := { content := [⟨"text", s⟩] }

/-- One element of a resource read result's `contents` array. -/
structure ResourceContent where
  uri : String
  mimeType : String
  text : String
deriving DecidableEq, Repr

/-- The envelope `readResource` resolves with. -/
structure ResourceResult where
  contents : List ResourceContent
deriving DecidableEq, Repr

/-- One adapter invocation performed while serving a read-resource request:
a file read or an external command. -/
inductive AdapterCall where
  | fsRead (path : String)
  | run (cmd : String)
deriving DecidableEq, Repr

/-- The content of one prompt message. -/
structure MsgContent where
  type : String
  text : String
deriving DecidableEq, Repr

/-- One conversational message of a prompt result. -/
structure Message where
  role : String
  content : MsgContent
deriving DecidableEq, Repr

/-- The envelope `getPrompt` resolves with. -/
structure PromptResult where
  messages : List Message
deriving DecidableEq, Repr

/-- The source's recurring prompt shape: a single user message holding one
text content. -/
def userMsg (t : String) : PromptResult := ⟨[⟨"user", ⟨"text", t⟩⟩]⟩

/-- One hexadecimal digit, lowercase, as JSON.stringify prints control
characters. -/
def hexDig (n : Nat) : Char := if n < 10 then Char.ofNat (48 + n) else Char.ofNat (87 + n)

/-- JSON string escaping as performed by `JSON.stringify`. -/
def jsonEscapeChar (c : Char) : String :=
  if c = '\"' then "\\\""
  else if c = '\\' then "\\\\"
  else if c = '\x08' then "\\b"
  else if c = '\t' then "\\t"
  else if c = '\n' then "\\n"
  else if c = '\x0c' then "\\f"
  else if c = '\x0d' then "\\r"
  else if c.toNat < 32 then "\\u00" ++ String.mk [hexDig (c.toNat / 16), hexDig (c.toNat % 16)]
  else String.mk [c]

/-- A JSON string literal for `s`. -/
def jsonQuote (s : String) : String :=
  "\"" ++ String.join (s.data.map jsonEscapeChar) ++ "\""

/-- `JSON.stringify({windows: ws}, null, 2)` for a list of strings. -/
def jsonWindows (ws : List String) : String :=
  if ws.isEmpty then "\x7b\n  \"windows\": []\n\x7d"
  else "\x7b\n  \"windows\": [\n    " ++ String.intercalate ",\n    " (ws.map jsonQuote) ++ "\n  ]\n\x7d"

/-- `JSON.stringify({state: s}, null, 2)`. -/
def jsonState (s : String) : String :=
  "\x7b\n  \"state\": " ++ jsonQuote s ++ "\n\x7d"

/-- `JSON.stringify(states, null, 2)` for a record built in insertion
order from (file, content) pairs. -/
def jsonRecord (ps : List (String × String)) : String :=
  if ps.isEmpty then "\x7b\x7d"
  else "\x7b\n  " ++ String.intercalate ",\n  " (ps.map (fun p => jsonQuote p.1 ++ ": " ++ jsonQuote p.2)) ++ "\n\x7d"

/-- A resource catalog entry as returned by `getResources`. -/
structure ResourceDescriptor where
  uri : String
  name : String
  description : String
  mimeType : String
deriving DecidableEq, Repr

/-- The static resource catalog of `getResources()` in resources.ts,
in declaration order. -/
def getResources : List ResourceDescriptor :=
  [⟨"fvwm://config/main", "FVWM3 Main Configuration",
    "The complete FVWM3 configuration file (~/.fvwm/config)", "text/plain"⟩,
   ⟨"fvwm://config/repo", "FVWM3 Repository Configuration",
    "Version-controlled configuration from desktop-settings repo", "text/plain"⟩,
   ⟨"fvwm://docs/claude", "CLAUDE.md Architecture Documentation",
    "Complete architecture documentation for FVWM3 setup", "text/markdown"⟩,
   ⟨"fvwm://docs/shortcuts", "Movement Shortcuts Documentation",
    "Spanish documentation of all movement shortcuts (ATAJOS-MOVIMIENTO.md)", "text/markdown"⟩,
   ⟨"fvwm://docs/smart-tiling", "Smart Tiling Technical Documentation",
    "Complete technical documentation of smart tiling system", "text/markdown"⟩,
   ⟨"fvwm://docs/readme", "FVWM3 Configuration README",
    "User-facing documentation and command reference", "text/markdown"⟩,
   ⟨"fvwm://scripts/smart-tile", "Smart Tiling Script",
    "Main smart tiling implementation script", "text/x-shellscript"⟩,
   ⟨"fvwm://scripts/maximize-monitor", "Maximize Current Monitor Script",
    "Monitor-aware maximize script", "text/x-shellscript"⟩,
   ⟨"fvwm://scripts/monitor-setup", "Monitor Setup Script",
    "Multi-monitor configuration script", "text/x-shellscript"⟩,
   ⟨"fvwm://scripts/toggle-keyboard", "Keyboard Layout Toggle Script",
    "Toggle between US and LATAM keyboard layouts", "text/x-shellscript"⟩,
   ⟨"fvwm://state/monitors", "Current Monitor Layout",
    "Current monitor configuration from xrandr", "text/plain"⟩,
   ⟨"fvwm://state/windows", "Active Windows",
    "List of all active windows with geometry", "application/json"⟩,
   ⟨"fvwm://state/current-desktop", "Current Desktop State",
    "Current desktop and page information", "application/json"⟩,
   ⟨"fvwm://state/tile-states", "Tile State Files",
    "Current smart tiling state for all windows", "application/json"⟩,
   ⟨"fvwm://logs/smart-tile", "Smart Tiling Debug Log",
    "Debug log from smart tiling operations", "text/plain"⟩]

/-- One property of a tool's JSON-Schema `inputSchema`. -/
structure SchemaProp where
  name : String
  type : String
  description : String
  enumVals : List String := []
deriving DecidableEq, Repr

/-- A tool catalog entry as returned by `getTools`: name, description and
the input schema's properties and required-field list. -/
structure ToolDescriptor where
  name : String
  description : String
  properties : List SchemaProp
  required : List String := []
deriving DecidableEq, Repr

/-- The static tool catalog of `getTools()` in tools.ts, in declaration
order. -/
def getTools : List ToolDescriptor :=
  [{ name := "fvwm_execute",
     description := "Execute an FVWM command using FvwmCommand",
     properties := [⟨"command", "string",
       "The FVWM command to execute (e.g., 'Restart', 'Move 100p 100p')", []⟩],
     required := ["command"] },
   { name := "fvwm_get_window_info",
     description := "Get detailed information about a specific window or all windows",
     properties := [⟨"window_id", "string",
       "Window ID in hex format (e.g., '0x9200005'). If not provided, returns all windows.", []⟩] },
   { name := "fvwm_get_monitor_layout",
     description := "Get current monitor layout and geometry from xrandr",
     properties := [] },
   { name := "fvwm_test_function",
     description := "Check if a specific FVWM function exists in the configuration",
     properties := [⟨"function_name", "string",
       "Name of the FVWM function to check (e.g., 'SmartTileLeft')", []⟩],
     required := ["function_name"] },
   { name := "fvwm_restart",
     description := "Restart FVWM3 to apply configuration changes",
     properties := [] },
   { name := "fvwm_validate_config",
     description := "Validate FVWM3 configuration syntax without restarting",
     properties := [⟨"config_path", "string",
       "Path to config file to validate. Defaults to ~/.fvwm/config", []⟩] },
   { name := "fvwm_get_keybindings",
     description := "List all keyboard bindings from the configuration",
     properties := [⟨"filter", "string",
       "Optional filter string to search for specific bindings", []⟩] },
   { name := "smart_tile_debug",
     description := "View the smart tiling debug log (last N lines)",
     properties := [⟨"lines", "number",
       "Number of lines to retrieve from the end of the log. Default: 50", []⟩] },
   { name := "smart_tile_state",
     description := "View or clear smart tiling state for windows",
     properties := [⟨"action", "string",
       "Action to perform: 'view' to see states, 'clear' to reset all states",
       ["view", "clear"]⟩,
      ⟨"window_id", "string",
       "Optional window ID to view/clear specific window state", []⟩],
     required := ["action"] },
   { name := "fvwm_get_desktop_info",
     description := "Get information about the current desktop and page",
     properties := [] }]

/-- One declared argument of a prompt. -/
structure PromptArg where
  name : String
  description : String
  required : Bool
deriving DecidableEq, Repr

/-- A prompt catalog entry as returned by `getPrompts`. -/
structure PromptDescriptor where
  name : String
  description : String
  arguments : List PromptArg
deriving DecidableEq, Repr

/-- The static prompt catalog of `getPrompts()` in prompts.ts, in
declaration order. -/
def getPrompts : List PromptDescriptor :=
  [⟨"create-window-function", "Generate a new FVWM window manipulation function",
    [⟨"function_name", "Name for the new function (e.g., 'MoveToCenterAndResize')", true⟩,
     ⟨"description", "What the function should do", true⟩]⟩,
   ⟨"add-keybinding", "Generate a keybinding with conflict checking",
    [⟨"key_combo", "Key combination (e.g., 'Super_L+m', 'Alt+Shift+w')", true⟩,
     ⟨"action", "What the keybinding should do", true⟩,
     ⟨"context", "Context where binding applies (default: 'A' for all)", false⟩]⟩,
   ⟨"create-tiling-script", "Generate a bash script for window tiling operations",
    [⟨"script_name", "Name for the script (e.g., 'quarter-tile')", true⟩,
     ⟨"tiling_behavior", "Describe the tiling behavior (e.g., 'tile to top-left quarter')", true⟩]⟩,
   ⟨"debug-fvwm-issue", "Guide for debugging FVWM configuration issues",
    [⟨"issue_description", "Describe the problem you're experiencing", true⟩]⟩,
   ⟨"create-menu", "Generate an FVWM menu configuration",
    [⟨"menu_name", "Name for the menu (e.g., 'WindowOpsMenu')", true⟩,
     ⟨"menu_items", "Comma-separated list of menu items", true⟩]⟩]

/-- The identifying keys of the resource catalog. -/
def resourceUris : List String := getResources.map ResourceDescriptor.uri

/-- The identifying keys of the tool catalog. -/
def toolCatalogNames : List String := getTools.map ToolDescriptor.name

/-- The identifying keys of the prompt catalog. -/
def promptCatalogNames : List String := getPrompts.map PromptDescriptor.name

/-- The `fvwm_execute` case of `executeTool`: run the command through
FvwmCommand; a rejection whose stderr trims to nonempty is rethrown, a
rejection with blank stderr is treated as success. -/
def toolFvwmExecute (w : World) (a : Args) : Except JsErr ToolResult :=
  match a "command" with
  | some (.vstr command) =>
    match w.run ("FvwmCommand \"" ++ escQuotes command ++ "\"") with
    | .success stdout stderr =>
      .ok (textResult
        (if stdout ≠ "" then stdout
         else if stderr ≠ "" then stderr
         else "Command executed successfully"))
    | .failure e =>
      if jsTrim e.stderr ≠ "" then .error (.jsError e.message)
      else .ok (textResult "Command executed (no output)")
  | some (.vnum _) => .error (.jsTypeError "command.replace is not a function")
  | none => .error (.jsTypeError "Cannot read properties of undefined (reading 'replace')")

/-- The `fvwm_get_window_info` case of `executeTool`. -/
def toolGetWindowInfo (w : World) (a : Args) : Except JsErr ToolResult :=
  let wid := a "window_id"
  let cmd :=
    if truthy wid then
      "FvwmCommand \"WindowId " ++ tmplVal wid ++ " Echo id=$[w.id] name=\\\"$[w.name]\\\" class=$[w.class] desk=$[w.desk] x=$[w.x] y=$[w.y] w=$[w.width] h=$[w.height]\""
    else
      "FvwmCommand 'All (CurrentPage) Echo id=$[w.id] name=\"$[w.name]\" class=$[w.class] desk=$[w.desk] x=$[w.x] y=$[w.y] w=$[w.width] h=$[w.height]'"
  match w.run cmd with
  | .success stdout _ => .ok (textResult (if stdout ≠ "" then stdout else "No windows found"))
  | .failure e => .error (.jsError e.message)

/-- The `fvwm_get_monitor_layout` case of `executeTool`. -/
def toolGetMonitorLayout (w : World) : Except JsErr ToolResult :=
  match w.run "xrandr --query | grep ' connected'" with
  | .success stdout _ => .ok (textResult stdout)
  | .failure e => .error (.jsError e.message)

/-- The `fvwm_test_function` case of `executeTool`. -/
def toolTestFunction (w : World) (a : Args) : Except JsErr ToolResult :=
  let fn := tmplVal (a "function_name")
  match w.fsRead (pjoin w.home ".fvwm/config") with
  | .ok config =>
    let ex := strContains config ("DestroyFunc " ++ fn) || strContains config ("AddToFunc " ++ fn)
    .ok (textResult
      (if ex then "Function '" ++ fn ++ "' exists in configuration"
       else "Function '" ++ fn ++ "' NOT found in configuration"))
  | .error m => .error (.jsError m)

/-- The `fvwm_restart` case of `executeTool`: the exec outcome is ignored
entirely (a rejection is expected when FVWM restarts). -/
def toolRestart (w : World) : Except JsErr ToolResult :=
  match w.run "FvwmCommand \"Restart\"" with
  | _ => .ok (textResult "FVWM3 restart command sent")

/-- Number of double-quote characters in a line, the source's
`(trimmed.match(/"/g) || []).length`. -/
def quoteCount (s : String) : Nat := s.data.count '\"'

/-- The four misspelled command heads the validator's regex looks for. -/
def typoHeads : List String := ["DestroyFun", "AddToFun", "DestroyMen", "AddToMen"]

/-- The validator's typo regex `^(DestroyFun|AddToFun|DestroyMen|AddToMen)\s`
applied to a trimmed line. -/
def startsTypo (t : String) : Bool :=
  typoHeads.any (fun p =>
    p.data.isPrefixOf t.data &&
      (match t.data.drop p.data.length with
       | c :: _ => jsIsSpace c
       | [] => false))

/-- The issues the validator reports for the line numbered `n` (1-based):
first the unmatched-quotes check, then the typo check. -/
def lineIssues (n : Nat) (line : String) : List String :=
  let t := jsTrim line
  (if quoteCount t % 2 ≠ 0 then ["Line " ++ toString n ++ ": Unmatched double quotes"] else []) ++
  (if startsTypo t then ["Line " ++ toString n ++ ": Possible typo in command"] else [])

/-- The validator's `lines.forEach((line, idx) => ...)` accumulation,
starting at line number `n`. -/
def validateAux (n : Nat) : List String → List String
  | [] => []
  | l :: ls => lineIssues n l ++ validateAux (n + 1) ls

/-- All issues the validator collects for a configuration text. -/
def validateErrors (config : String) : List String :=
  validateAux 1 (jsSplitChar '\n' config)

/-- The `fvwm_validate_config` case of `executeTool`. A read failure is
caught inside the case and reported as a non-error text result. -/
def toolValidateConfig (w : World) (a : Args) : Except JsErr ToolResult :=
  let configPath :=
    if truthy (a "config_path") then tmplVal (a "config_path")
    else pjoin w.home ".fvwm/config"
  match w.fsRead configPath with
  | .ok config =>
    let lines := jsSplitChar '\n' config
    let errors := validateErrors config
    .ok (textResult
      (if errors.length = 0 then
        "Configuration appears valid (" ++ toString lines.length ++ " lines checked)"
      else
        "Found " ++ toString errors.length ++ " potential issues:\n" ++
          String.intercalate "\n" errors))
  | .error m => .ok (textResult ("Error reading config: " ++ ("Error: " ++ m)))

/-- The `fvwm_get_keybindings` case of `executeTool`. -/
def toolGetKeybindings (w : World) (a : Args) : Except JsErr ToolResult :=
  let filter := a "filter"
  match w.fsRead (pjoin w.home ".fvwm/config") with
  | .ok config =>
    let lines := jsSplitChar '\n' config
    let bindings :=
      (lines.filter (fun l => "Key ".data.isPrefixOf (jsTrim l).data)).filter
        (fun l => !truthy filter || strContains l (tmplVal filter))
    .ok (textResult
      (if bindings.length > 0 then String.intercalate "\n" bindings
       else "No keybindings found" ++
         (if truthy filter then " matching '" ++ tmplVal filter ++ "'" else "")))
  | .error m => .error (.jsError m)

/-- The `smart_tile_debug` case of `executeTool`. A tail failure is caught
inside the case. -/
def toolSmartTileDebug (w : World) (a : Args) : Except JsErr ToolResult :=
  let lines := if truthy (a "lines") then tmplVal (a "lines") else "50"
  match w.run ("tail -n " ++ lines ++ " " ++ pjoin w.home ".fvwm/smart-tile-debug.log") with
  | .success stdout _ => .ok (textResult (if stdout ≠ "" then stdout else "Debug log is empty"))
  | .failure _ => .ok (textResult "Debug log not found or empty")

/-- The `view`-without-window-id loop of `smart_tile_state`: read each
nonempty file name's state file in order, stopping at the first failure. -/
def readStatesList (w : World) (dir : String) : List String → Except String (List String)
  | [] => .ok []
  | f :: fs =>
    if f ≠ "" then
      match w.fsRead (pjoin dir f) with
      | .ok st =>
        match readStatesList w dir fs with
        | .ok r => .ok ((f ++ ": " ++ jsTrim st) :: r)
        | .error e => .error e
      | .error e => .error e
    else readStatesList w dir fs

/-- The `smart_tile_state` case of `executeTool`. -/
def toolSmartTileState (w : World) (a : Args) : Except JsErr ToolResult :=
  let act := a "action"
  let wid := a "window_id"
  let stateDir := pjoin w.home ".fvwm/tile-state"
  if act = some (.vstr "view") then
    if truthy wid then
      match w.fsRead (pjoin stateDir (tmplVal wid)) with
      | .ok st => .ok (textResult ("Window " ++ tmplVal wid ++ ": " ++ st))
      | .error _ => .ok (textResult "No tile states found")
    else
      match w.run ("ls -1 " ++ stateDir ++ " 2>/dev/null || echo \"\"") with
      | .failure _ => .ok (textResult "No tile states found")
      | .success files _ =>
        if jsTrim files = "" then .ok (textResult "No tile states found")
        else
          match readStatesList w stateDir (jsSplitChar '\n' (jsTrim files)) with
          | .ok states => .ok (textResult (String.intercalate "\n" states))
          | .error _ => .ok (textResult "No tile states found")
  else if act = some (.vstr "clear") then
    if truthy wid then
      match w.run ("rm -f " ++ pjoin stateDir (tmplVal wid)) with
      | .success _ _ => .ok (textResult ("Cleared state for window " ++ tmplVal wid))
      | .failure e => .ok (textResult ("Error clearing states: " ++ ("Error: " ++ e.message)))
    else
      match w.run ("rm -f " ++ stateDir ++ "/*") with
      | .success _ _ => .ok (textResult "Cleared all tile states")
      | .failure e => .ok (textResult ("Error clearing states: " ++ ("Error: " ++ e.message)))
  else .error (.jsError ("Unknown action: " ++ tmplVal act))

/-- The `fvwm_get_desktop_info` case of `executeTool`. -/
def toolGetDesktopInfo (w : World) : Except JsErr ToolResult :=
  match w.run "FvwmCommand \"Echo desk=$[desk.n] page=$[page.nx]x$[page.ny] deskname=\\\"$[desk.name$[desk.n]]\\\"\"" with
  | .success stdout _ => .ok (textResult (if stdout ≠ "" then stdout else "Unable to get desktop info"))
  | .failure e => .error (.jsError e.message)

/-- The switch statement of `executeTool` in tools.ts: dispatch by tool
name; an unrecognized name throws `Unknown tool`. -/
def executeToolAux (w : World) (name : String) (a : Args) : Except JsErr ToolResult :=
  if name = "fvwm_execute" then toolFvwmExecute w a
  else if name = "fvwm_get_window_info" then toolGetWindowInfo w a
  else if name = "fvwm_get_monitor_layout" then toolGetMonitorLayout w
  else if name = "fvwm_test_function" then toolTestFunction w a
  else if name = "fvwm_restart" then toolRestart w
  else if name = "fvwm_validate_config" then toolValidateConfig w a
  else if name = "fvwm_get_keybindings" then toolGetKeybindings w a
  else if name = "smart_tile_debug" then toolSmartTileDebug w a
  else if name = "smart_tile_state" then toolSmartTileState w a
  else if name = "fvwm_get_desktop_info" then toolGetDesktopInfo w
  else .error (.jsError ("Unknown tool: " ++ name))

/-- `executeTool` of tools.ts: the whole switch is wrapped in a catch that
converts every thrown value into an error-flagged envelope, so the function
is total. -/
def executeTool (w : World) (name : String) (a : Args) : ToolResult :=
  match executeToolAux w name a with
  | .ok r => r
  | .error e =>
    { content := [⟨"text", "Error executing tool '" ++ name ++ "': " ++ e.display⟩],
      isError := true }

/-- A file-backed resource case of `readResource`: one read, wrapped as a
single content block on success, rethrown on failure. -/
def readFileRes (w : World) (uri path mime : String) :
    Except JsErr ResourceResult × List AdapterCall :=
  (match w.fsRead path with
   | .ok c => .ok ⟨[⟨uri, mime, c⟩]⟩
   | .error m => .error (.jsError m),
   [.fsRead path])

/-- The shell command of the `fvwm://state/windows` case. -/
def windowsCmd : String :=
  "FvwmCommand \"All (CurrentPage) Echo $[w.id] $[w.name] $[w.x] $[w.y] $[w.width] $[w.height]\""

/-- The shell command of the `fvwm://state/current-desktop` case. -/
def deskCmd : String :=
  "FvwmCommand \"Echo desk=$[desk.n] page=$[page.nx]x$[page.ny]\""

/-- The per-file loop of the `fvwm://state/tile-states` case: read each
nonempty file of the listing in order, stopping at the first failure, and
record every file read attempted. -/
def readTileStates (w : World) (dir : String) :
    List String → Except String (List (String × String)) × List AdapterCall
  | [] => (.ok [], [])
  | f :: fs =>
    if f ≠ "" then
      match w.fsRead (pjoin dir f) with
      | .ok st =>
        match readTileStates w dir fs with
        | (.ok ps, calls) => (.ok ((f, jsTrim st) :: ps), .fsRead (pjoin dir f) :: calls)
        | (.error e, calls) => (.error e, .fsRead (pjoin dir f) :: calls)
      | .error e => (.error e, [.fsRead (pjoin dir f)])
    else readTileStates w dir fs

/-- The `fvwm://state/tile-states` case of `readResource`: list the state
directory and read each file; any failure is caught inside the case and
turned into an empty JSON object result. -/
def tileStatesRes (w : World) (uri : String) :
    Except JsErr ResourceResult × List AdapterCall :=
  let dir := pjoin w.home ".fvwm/tile-state"
  match w.run ("ls " ++ dir) with
  | .failure _ => (.ok ⟨[⟨uri, "application/json", jsonRecord []⟩]⟩, [.run ("ls " ++ dir)])
  | .success files _ =>
    match readTileStates w dir (jsSplitChar '\n' (jsTrim files)) with
    | (.ok states, calls) =>
      (.ok ⟨[⟨uri, "application/json", jsonRecord states⟩]⟩, .run ("ls " ++ dir) :: calls)
    | (.error _, calls) =>
      (.ok ⟨[⟨uri, "application/json", jsonRecord []⟩]⟩, .run ("ls " ++ dir) :: calls)

/-- The switch statement of `readResource` in resources.ts, paired with the
list of adapter calls the chosen case performs; an unrecognized uri throws
`Unknown resource URI` without touching any adapter. -/
def readResourceAux (w : World) (uri : String) :
    Except JsErr ResourceResult × List AdapterCall :=
  if uri = "fvwm://config/main" then
    readFileRes w uri (pjoin w.home ".fvwm/config") "text/plain"
  else if uri = "fvwm://config/repo" then
    readFileRes w uri (pjoin w.home "repo/utils/desktop-settings/fvwm3rc/config") "text/plain"
  else if uri = "fvwm://docs/claude" then
    readFileRes w uri (pjoin w.home "repo/utils/desktop-settings/CLAUDE.md") "text/markdown"
  else if uri = "fvwm://docs/shortcuts" then
    readFileRes w uri (pjoin w.home ".fvwm/ATAJOS-MOVIMIENTO.md") "text/markdown"
  else if uri = "fvwm://docs/smart-tiling" then
    readFileRes w uri (pjoin w.home "repo/utils/desktop-settings/fvwm3rc/scripts/README-SMART-TILING.md") "text/markdown"
  else if uri = "fvwm://docs/readme" then
    readFileRes w uri (pjoin w.home "repo/utils/desktop-settings/fvwm3rc/README.md") "text/markdown"
  else if uri = "fvwm://scripts/smart-tile" then
    readFileRes w uri (pjoin w.home ".fvwm/scripts/smart-tile.sh") "text/x-shellscript"
  else if uri = "fvwm://scripts/maximize-monitor" then
    readFileRes w uri (pjoin w.home ".fvwm/scripts/maximize-current-monitor.sh") "text/x-shellscript"
  else if uri = "fvwm://scripts/monitor-setup" then
    readFileRes w uri (pjoin w.home ".fvwm/scripts/monitor-setup.sh") "text/x-shellscript"
  else if uri = "fvwm://scripts/toggle-keyboard" then
    readFileRes w uri (pjoin w.home ".fvwm/scripts/toggle-keyboard-layout.sh") "text/x-shellscript"
  else if uri = "fvwm://state/monitors" then
    (match w.run "xrandr --query" with
     | .success so _ => .ok ⟨[⟨uri, "text/plain", so⟩]⟩
     | .failure e => .error (.jsError e.message),
     [.run "xrandr --query"])
  else if uri = "fvwm://state/windows" then
    (match w.run windowsCmd with
     | .success so _ => .ok ⟨[⟨uri, "application/json", jsonWindows (jsSplitChar '\n' (jsTrim so))⟩]⟩
     | .failure e => .error (.jsError e.message),
     [.run windowsCmd])
  else if uri = "fvwm://state/current-desktop" then
    (match w.run deskCmd with
     | .success so _ => .ok ⟨[⟨uri, "application/json", jsonState (jsTrim so)⟩]⟩
     | .failure e => .error (.jsError e.message),
     [.run deskCmd])
  else if uri = "fvwm://state/tile-states" then
    tileStatesRes w uri
  else if uri = "fvwm://logs/smart-tile" then
    (match w.fsRead (pjoin w.home ".fvwm/smart-tile-debug.log") with
     | .ok c => .ok ⟨[⟨uri, "text/plain", c⟩]⟩
     | .error _ => .ok ⟨[⟨uri, "text/plain", "No debug log found"⟩]⟩,
     [.fsRead (pjoin w.home ".fvwm/smart-tile-debug.log")])
  else (.error (.jsError ("Unknown resource URI: " ++ uri)), [])

/-- `readResource` of resources.ts: every throw out of the switch is
re-wrapped by the outer catch into a `Failed to read resource` fault, which
propagates to the caller. The second component is the adapter-call trace. -/
def readResource (w : World) (uri : String) :
    Except String ResourceResult × List AdapterCall :=
  match readResourceAux w uri with
  | (.ok v, calls) => (.ok v, calls)
  | (.error e, calls) =>
    (.error ("Failed to read resource " ++ uri ++ ": " ++ e.display), calls)

/-- The template of the `create-window-function` prompt. -/
def createWindowFunctionText (fn desc : String) : String :=
  "Create a new FVWM3 window function called \"" ++ fn ++ "\" that " ++ desc ++
  ".\n\nThe function should:\n1. Follow FVWM3 best practices\n2. Use DestroyFunc to allow reloading\n3. Use proper FVWM expansion variables (e.g., $[w.id], $[w.x], $[w.width])\n4. Include comments explaining the logic\n5. Handle edge cases appropriately\n\nCurrent FVWM3 setup context:\n- 3 monitors: DP-4 (1920x1080+0+0), HDMI-0 (1920x1080+1920+0), DP-2 (1920x1080+3840+0)\n- Desktop layout: 4 desktops (Principal, Web, Desarrollo, Media), 2x2 pages each\n- Panel reserves 120px on right edge (EwmhBaseStruts 0 120 0 0)\n- Focus policy: ClickToFocus\n\nProvide the complete function definition ready to be added to ~/.fvwm/config."

/-- The template of the `add-keybinding` prompt. -/
def addKeybindingText (kc act ctx : String) : String :=
  "Create a keybinding for " ++ kc ++ " that " ++ act ++
  ".\n\nRequirements:\n1. Check for conflicts with existing keybindings in the configuration\n2. Use proper FVWM Key syntax: Key <keyname> <context> <modifiers> <action>\n3. Context: " ++
  ctx ++
  " (R=root window, W=application window, A=all)\n4. Follow the project's keybinding conventions:\n   - Super (Mod4) for system/WM operations\n   - Alt for desktop/window movement\n   - Ctrl+Alt for window positioning (shuffle, grow)\n\nCurrent keybinding scheme:\n- Alt+q/w/a/s: Navigate to desktops\n- Alt+Shift+Q/W/A/S: Send window to desktop\n- Alt+Ctrl+q/w/a/s: Move window and follow\n- Super+Enter: Terminal\n- Super+W: Browser\n- Super+E: Editor\n- Super+Space: Toggle keyboard layout\n- Super+Arrow keys: Smart tiling\n\nProvide:\n1. The complete Key command\n2. List of any conflicts found\n3. Suggested alternatives if conflicts exist"

/-- The template of the `create-tiling-script` prompt. -/
def createTilingScriptText (sn tb : String) : String :=
  "Create a bash script called \"" ++ sn ++ ".sh\" that " ++ tb ++
  ".\n\nThe script should:\n1. Follow the smart tiling architecture pattern from smart-tile.sh\n2. Use xrandr to detect monitor geometry\n3. Handle multi-monitor setups correctly\n4. Use FVWM expansion variables passed as arguments\n5. Generate ResizeMove commands with absolute pixel coordinates\n6. Include debug logging to ~/.fvwm/smart-tile-debug.log\n7. Manage state in ~/.fvwm/tile-state/ if needed\n\nMonitor setup:\n- DP-4: 1920x1080+0+0 (left)\n- HDMI-0: 1920x1080+1920+0 (center, primary)\n- DP-2: 1920x1080+3840+0 (right)\n\nScript should accept FVWM variables as arguments:\n$1 = window_id (e.g., 0x9200005)\n$2 = window_x\n$3 = window_y\n$4 = window_width\n$5 = window_height\n\nOutput should be FVWM commands that can be used with PipeRead.\n\nProvide:\n1. Complete bash script with shebang\n2. FVWM function definition to call the script\n3. Example keybinding\n4. Usage instructions"

/-- The template of the `debug-fvwm-issue` prompt. -/
def debugFvwmIssueText (issue : String) : String :=
  "I'm experiencing an issue with FVWM3: " ++ issue ++
  "\n\nPlease provide a systematic debugging approach:\n\n1. **Information Gathering**\n   - What FVWM resources to check (fvwm://config/main, fvwm://logs/*, etc.)\n   - What tools to use (fvwm_get_window_info, fvwm_get_keybindings, etc.)\n   - What logs to examine\n\n2. **Diagnostic Steps**\n   - Commands to run for diagnosis\n   - Expected vs actual output\n   - Common causes for this type of issue\n\n3. **Testing**\n   - How to test in isolation\n   - How to verify the fix\n   - How to avoid breaking other functionality\n\n4. **Common Solutions**\n   - Based on similar issues in FVWM3\n   - Configuration fixes\n   - Workarounds if no direct fix exists\n\nCurrent setup context:\n- FVWM3 version: 1.1.5\n- 3 monitors, 4 desktops, ClickToFocus\n- Smart tiling system installed\n- Custom keybindings using QWAS scheme\n- RightPanel on primary monitor\n\nProvide step-by-step debugging instructions."

/-- The fixed tail of the `create-menu` template, after the enumerated
items. -/
def createMenuTail : String :=
  "\n\nThe menu should:\n1. Use DestroyMenu to allow reloading\n2. Follow the project's color scheme (Dracula/Nord inspired dark theme):\n   - Colorset 0: Background (#282a36)\n   - Colorset 1: Inactive elements (#44475a)\n   - Colorset 2: Active highlights (#8be9fd)\n3. Include appropriate icons if available\n4. Have proper spacing and separators\n5. Use meaningful shortcuts/accelerators\n\nMenu syntax:\nDestroyMenu <menu_name>\nAddToMenu <menu_name> \"Title\" Title\n+ \"Item Text\" Action\n+ \"\" Nop  # Separator\n\nProvide:\n1. Complete menu definition\n2. Suggested keybinding to open the menu\n3. Example of how to add it to the root menu\n4. Usage notes"

/-- The template of the `create-menu` prompt: header, split-trim-enumerated
items joined by newlines, then the fixed tail. -/
def createMenuText (mn : String) (items : List String) : String :=
  "Create an FVWM menu called \"" ++ mn ++ "\" with the following items:\n" ++
  String.intercalate "\n" (items.enum.map (fun p => toString (p.1 + 1) ++ ". " ++ p.2)) ++
  createMenuTail

/-- `getPrompt` of prompts.ts: dispatch by prompt name; no catch anywhere,
so every thrown value (unknown name, or the `create-menu` case splitting a
missing `menu_items`) propagates to the caller. -/
def getPrompt (name : String) (a : Args) : Except JsErr PromptResult :=
  if name = "create-window-function" then
    .ok (userMsg (createWindowFunctionText (tmplVal (a "function_name")) (tmplVal (a "description"))))
  else if name = "add-keybinding" then
    .ok (userMsg (addKeybindingText (tmplVal (a "key_combo")) (tmplVal (a "action"))
      (match a "context" with
       | none => "A"
       | some v => tmplVal (some v))))
  else if name = "create-tiling-script" then
    .ok (userMsg (createTilingScriptText (tmplVal (a "script_name")) (tmplVal (a "tiling_behavior"))))
  else if name = "debug-fvwm-issue" then
    .ok (userMsg (debugFvwmIssueText (tmplVal (a "issue_description"))))
  else if name = "create-menu" then
    match a "menu_items" with
    | some (.vstr mi) =>
      .ok (userMsg (createMenuText (tmplVal (a "menu_name")) ((jsSplitChar ',' mi).map jsTrim)))
    | some (.vnum _) => .error (.jsTypeError "menu_items.split is not a function")
    | none => .error (.jsTypeError "Cannot read properties of undefined (reading 'split')")
  else .error (.jsError ("Unknown prompt: " ++ name))

/-- A world whose commands succeed silently and whose file reads all fail. -/
def wNull : World :=
  { run := fun _ => .success "" "",
    fsRead := fun _ => .error "ENOENT: no such file or directory",
    home := "/home/user" }

/-- A world where every adapter fails with the message "ENOENT". -/
def wAllFail : World :=
  { run := fun _ => .failure ⟨"ENOENT", ""⟩,
    fsRead := fun _ => .error "ENOENT",
    home := "/home/user" }

/-- An exec rejection whose stderr is empty, as FvwmCommand produces when it
exits nonzero without diagnostics. -/
def eSilent : ExecErr := ⟨"Command failed: FvwmCommand \"Restart\"", ""⟩

/-- A world whose commands all fail silently (empty stderr). -/
def wSilent : World :=
  { run := fun _ => .failure eSilent, fsRead := fun _ => .error "ENOENT", home := "/home/user" }

/-- An exec rejection with a nonempty stderr. -/
def eNoisy : ExecErr := ⟨"Command failed: FvwmCommand \"Bogus\"", "Unknown command: Bogus\n"⟩

/-- A world whose commands all fail with a diagnostic on stderr. -/
def wNoisy : World :=
  { run := fun _ => .failure eNoisy, fsRead := fun _ => .error "ENOENT", home := "/home/user" }

/-- The empty argument mapping: every property is absent. -/
def noArgs : Args := fun _ => none

/-- Arguments carrying only `command: "Restart"`. -/
def restartArgs : Args := fun k => if k = "command" then some (.vstr "Restart") else none

/-- Arguments carrying only `command: "Bogus"`. -/
def bogusArgs : Args := fun k => if k = "command" then some (.vstr "Bogus") else none

/-- Arguments for the create-menu example of the specification. -/
def menuArgs : Args :=
  fun k =>
    if k = "menu_name" then some (.vstr "Ops")
    else if k = "menu_items" then some (.vstr "Close, Reload, Exit")
    else none

/-- When the dispatch switch throws, the outer catch of executeTool wraps
the thrown value into an error-flagged envelope. -/
theorem executeTool_of_aux_error {w : World} {name : String} {a : Args} {e : JsErr}
    (h : executeToolAux w name a = .error e) :
    executeTool w name a =
      { content := [⟨"text", "Error executing tool '" ++ name ++ "': " ++ e.display⟩],
        isError := true } := by
  unfold executeTool
  rw [h]

/-- When the dispatch switch returns, executeTool passes the envelope on
unchanged. -/
theorem executeTool_of_aux_ok {w : World} {name : String} {a : Args} {r : ToolResult}
    (h : executeToolAux w name a = .ok r) : executeTool w name a = r := by
  unfold executeTool
  rw [h]

/-- C8: In each of the three catalogs returned by getResources, getTools and
getPrompts, the identifying keys (uri for resources, name for tools and
prompts) are pairwise distinct. -/
theorem catalog_keys_pairwise_distinct :
    (getResources.map ResourceDescriptor.uri).Nodup ∧
    (getTools.map ToolDescriptor.name).Nodup ∧
    (getPrompts.map PromptDescriptor.name).Nodup := by
  decide

/-- C4: getPrompt on a name absent from the prompt catalog fails with the
propagated `Unknown prompt` error; it is not swallowed into a result
envelope. -/
theorem unknown_prompt_propagates (name : String) (a : Args)
    (h : name ∉ promptCatalogNames) :
    getPrompt name a = .error (.jsError ("Unknown prompt: " ++ name)) := by
  have hni : ∀ s, s ∈ promptCatalogNames → ¬(name = s) := fun s hs e => h (e ▸ hs)
  simp [getPrompt,
    hni "create-window-function" (by decide),
    hni "add-keybinding" (by decide),
    hni "create-tiling-script" (by decide),
    hni "debug-fvwm-issue" (by decide),
    hni "create-menu" (by decide)]

/-- C4 witness: a concrete unknown prompt name fails with the propagated
error. -/
theorem unknown_prompt_propagates_witness :
    getPrompt "no-such-prompt" noArgs =
      .error (.jsError ("Unknown prompt: " ++ "no-such-prompt")) :=
  unknown_prompt_propagates "no-such-prompt" noArgs (by decide)

/-- C1: executeTool on a name absent from the tool catalog returns a
well-formed envelope with isError true whose single text block contains the
unknown name; the call is total, so no fault reaches the caller. -/
theorem unknown_tool_swallowed_into_envelope (w : World) (a : Args) (name : String)
    (h : name ∉ toolCatalogNames) :
    (executeTool w name a).isError = true ∧
    ∃ p q, (executeTool w name a).content = [⟨"text", p ++ name ++ q⟩] := by
  have hni : ∀ s, s ∈ toolCatalogNames → ¬(name = s) := fun s hs e => h (e ▸ hs)
  have hx : executeToolAux w name a = .error (.jsError ("Unknown tool: " ++ name)) := by
    simp [executeToolAux,
      hni "fvwm_execute" (by decide),
      hni "fvwm_get_window_info" (by decide),
      hni "fvwm_get_monitor_layout" (by decide),
      hni "fvwm_test_function" (by decide),
      hni "fvwm_restart" (by decide),
      hni "fvwm_validate_config" (by decide),
      hni "fvwm_get_keybindings" (by decide),
      hni "smart_tile_debug" (by decide),
      hni "smart_tile_state" (by decide),
      hni "fvwm_get_desktop_info" (by decide)]
  rw [executeTool_of_aux_error hx]
  refine ⟨rfl, "Error executing tool '",
    "': " ++ JsErr.display (.jsError ("Unknown tool: " ++ name)), ?_⟩
  simp [JsErr.display, String.append_assoc]

/-- C1 witness: a concrete unknown tool name yields the error envelope with
the name inside its text block. -/
theorem unknown_tool_swallowed_witness :
    (executeTool wNull "no_such_tool" noArgs).isError = true ∧
    ∃ p q,
      (executeTool wNull "no_such_tool" noArgs).content = [⟨"text", p ++ "no_such_tool" ++ q⟩] :=
  unknown_tool_swallowed_into_envelope wNull noArgs "no_such_tool" (by decide)

/-- C5: readResource on a uri absent from the resource catalog fails with
the unknown-identifier message and an empty adapter trace: no file read and
no process execution happens. -/
theorem unknown_uri_no_adapter (w : World) (uri : String) (h : uri ∉ resourceUris) :
    (readResource w uri).2 = [] ∧
    ∃ p, (readResource w uri).1 = .error (p ++ ("Unknown resource URI: " ++ uri)) := by
  have hni : ∀ s, s ∈ resourceUris → ¬(uri = s) := fun s hs e => h (e ▸ hs)
  have hx : readResourceAux w uri = (.error (.jsError ("Unknown resource URI: " ++ uri)), []) := by
    simp [readResourceAux,
      hni "fvwm://config/main" (by decide),
      hni "fvwm://config/repo" (by decide),
      hni "fvwm://docs/claude" (by decide),
      hni "fvwm://docs/shortcuts" (by decide),
      hni "fvwm://docs/smart-tiling" (by decide),
      hni "fvwm://docs/readme" (by decide),
      hni "fvwm://scripts/smart-tile" (by decide),
      hni "fvwm://scripts/maximize-monitor" (by decide),
      hni "fvwm://scripts/monitor-setup" (by decide),
      hni "fvwm://scripts/toggle-keyboard" (by decide),
      hni "fvwm://state/monitors" (by decide),
      hni "fvwm://state/windows" (by decide),
      hni "fvwm://state/current-desktop" (by decide),
      hni "fvwm://state/tile-states" (by decide),
      hni "fvwm://logs/smart-tile" (by decide)]
  constructor
  · simp [readResource, hx]
  · refine ⟨("Failed to read resource " ++ uri ++ ": ") ++ "Error: ", ?_⟩
    simp only [readResource, hx, JsErr.display, String.append_assoc]

/-- C5 witness: a concrete invalid uri fails without touching any adapter. -/
theorem unknown_uri_no_adapter_witness :
    (readResource wNull "fvwm://config/unknown").2 = [] ∧
    ∃ p,
      (readResource wNull "fvwm://config/unknown").1 =
        .error (p ++ ("Unknown resource URI: " ++ "fvwm://config/unknown")) :=
  unknown_uri_no_adapter wNull "fvwm://config/unknown" (by decide)

/-- Reduction of the create-menu case of getPrompt to its match on the
`menu_items` argument. -/
theorem getPrompt_create_menu (a : Args) :
    getPrompt "create-menu" a =
      match a "menu_items" with
      | some (.vstr mi) =>
        .ok (userMsg (createMenuText (tmplVal (a "menu_name")) ((jsSplitChar ',' mi).map jsTrim)))
      | some (.vnum _) => .error (.jsTypeError "menu_items.split is not a function")
      | none => .error (.jsTypeError "Cannot read properties of undefined (reading 'split')") :=
  rfl

/-- C2 counterexample: `issue_description` is declared required in the
prompt catalog, yet getPrompt on `debug-fvwm-issue` with no arguments does
not report any client-input failure — it succeeds, rendering the text
"undefined" into the template. -/
theorem required_fields_unreported_cex :
    (∃ d ∈ getPrompts, d.name = "debug-fvwm-issue" ∧
      ∃ ar ∈ d.arguments, ar.name = "issue_description" ∧ ar.required = true) ∧
    getPrompt "debug-fvwm-issue" noArgs = .ok (userMsg (debugFvwmIssueText "undefined")) :=
  ⟨by decide, rfl⟩

/-- C2 (amended): neither executeTool nor getPrompt checks arguments
against the descriptor's required-field list before the handler body runs.
For call-tool, a missing required field surfaces only if the handler body
itself faults (fvwm_execute dereferencing the missing `command`), and that
fault is caught into an isError envelope; for get-prompt a missing required
field is not reported at all — templates render with "undefined" in its
place, except create-menu, whose handler faults splitting the missing
`menu_items` and the fault propagates uncaught. -/
theorem required_fields_unchecked_behavior (w : World) (a : Args)
    (h : a "command" = none) :
    (executeTool w "fvwm_execute" a).isError = true ∧
    (∀ a2 : Args, a2 "menu_items" = none →
      getPrompt "create-menu" a2 =
        .error (.jsTypeError "Cannot read properties of undefined (reading 'split')")) ∧
    getPrompt "debug-fvwm-issue" noArgs = .ok (userMsg (debugFvwmIssueText "undefined")) := by
  refine ⟨?_, ?_, rfl⟩
  · have hx : executeToolAux w "fvwm_execute" a =
        .error (.jsTypeError "Cannot read properties of undefined (reading 'replace')") := by
      have h0 : executeToolAux w "fvwm_execute" a = toolFvwmExecute w a := rfl
      rw [h0]
      unfold toolFvwmExecute
      rw [h]
    rw [executeTool_of_aux_error hx]
  · intro a2 h2
    rw [getPrompt_create_menu, h2]

/-- C2 witness: the amended behavior at the empty argument mapping. -/
theorem required_fields_unchecked_witness :
    (executeTool wNull "fvwm_execute" noArgs).isError = true :=
  (required_fields_unchecked_behavior wNull noArgs rfl).1

/-- C6 counterexample: a FvwmCommand invocation that fails with an empty
stderr is mapped to a success envelope without the error flag, not to
isError true. -/
theorem fvwm_execute_silent_failure_cex :
    wSilent.run ("FvwmCommand \"" ++ escQuotes "Restart" ++ "\"") = .failure eSilent ∧
    executeTool wSilent "fvwm_execute" restartArgs = textResult "Command executed (no output)" ∧
    (executeTool wSilent "fvwm_execute" restartArgs).isError = false :=
  ⟨rfl, rfl, rfl⟩

/-- C6 (amended): when the FvwmCommand invocation behind fvwm_execute
fails, executeTool returns an envelope and never throws: the envelope has
isError true with the failure message in its text block when the rejection
carries a nonempty (after trimming) stderr, and is the non-error result
"Command executed (no output)" when the stderr trims to empty. -/
theorem fvwm_execute_failure_envelope (w : World) (a : Args) (c : String) (e : ExecErr)
    (hc : a "command" = some (.vstr c))
    (hr : w.run ("FvwmCommand \"" ++ escQuotes c ++ "\"") = .failure e) :
    (jsTrim e.stderr ≠ "" →
      (executeTool w "fvwm_execute" a).isError = true ∧
      ∃ p, (executeTool w "fvwm_execute" a).content = [⟨"text", p ++ e.message⟩]) ∧
    (jsTrim e.stderr = "" →
      executeTool w "fvwm_execute" a = textResult "Command executed (no output)") := by
  have hb : toolFvwmExecute w a =
      (if jsTrim e.stderr ≠ "" then .error (.jsError e.message)
       else .ok (textResult "Command executed (no output)")) := by
    unfold toolFvwmExecute
    rw [hc]
    dsimp only
    rw [hr]
  have h0 : executeToolAux w "fvwm_execute" a = toolFvwmExecute w a := rfl
  constructor
  · intro hne
    have hx : executeToolAux w "fvwm_execute" a = .error (.jsError e.message) := by
      rw [h0, hb, if_pos hne]
    rw [executeTool_of_aux_error hx]
    refine ⟨rfl, "Error executing tool '" ++ "fvwm_execute" ++ "': " ++ "Error: ", ?_⟩
    simp only [JsErr.display, String.append_assoc]
  · intro heq
    have hx : executeToolAux w "fvwm_execute" a =
        .ok (textResult "Command executed (no output)") := by
      rw [h0, hb, if_neg (fun hn => hn heq)]
    exact executeTool_of_aux_ok hx

/-- C6 witness: the amended behavior at a concrete failing invocation with
diagnostic stderr. -/
theorem fvwm_execute_failure_envelope_witness :
    (executeTool wNoisy "fvwm_execute" bogusArgs).isError = true :=
  ((fvwm_execute_failure_envelope wNoisy bogusArgs "Bogus" eNoisy rfl rfl).1 (by decide)).1

/-- C7: getPrompt on create-menu returns a single user message whose text
substitutes the menu name and the comma-split, trimmed `menu_items`,
enumerated with 1-based numbers in input order, into the fixed template. -/
theorem create_menu_split_trim_enumerate (a : Args) (mn mi : String)
    (h1 : a "menu_name" = some (.vstr mn)) (h2 : a "menu_items" = some (.vstr mi)) :
    getPrompt "create-menu" a =
      .ok
        ⟨[⟨"user",
           ⟨"text",
            "Create an FVWM menu called \"" ++ mn ++ "\" with the following items:\n" ++
              String.intercalate "\n"
                ((((jsSplitChar ',' mi).map jsTrim).enum).map
                  (fun p => toString (p.1 + 1) ++ ". " ++ p.2)) ++
              createMenuTail⟩⟩]⟩ := by
  rw [getPrompt_create_menu, h2]
  dsimp only
  rw [h1]
  rfl

/-- C7 witness: the specification's example, with the three items Close,
Reload, Exit enumerated 1 through 3 in order. -/
theorem create_menu_split_trim_enumerate_witness :
    getPrompt "create-menu" menuArgs =
      .ok
        ⟨[⟨"user",
           ⟨"text",
            "Create an FVWM menu called \"Ops\" with the following items:\n" ++
              "1. Close\n2. Reload\n3. Exit" ++ createMenuTail⟩⟩]⟩ := by
  have h := create_menu_split_trim_enumerate menuArgs "Ops" "Close, Reload, Exit" rfl rfl
  rw [h]
  rfl

/-- Every success the fvwm_execute case returns is a single text block. -/
theorem toolFvwmExecute_ok_shape {w : World} {a : Args} {r : ToolResult}
    (h : toolFvwmExecute w a = .ok r) : ∃ t, r = textResult t := by
  simp only [toolFvwmExecute] at h
  repeat' split at h
  all_goals first
    | (injection h with h; exact ⟨_, h.symm⟩)
    | injection h

/-- Every success the fvwm_get_window_info case returns is a single text
block. -/
theorem toolGetWindowInfo_ok_shape {w : World} {a : Args} {r : ToolResult}
    (h : toolGetWindowInfo w a = .ok r) : ∃ t, r = textResult t := by
  simp only [toolGetWindowInfo] at h
  repeat' split at h
  all_goals first
    | (injection h with h; exact ⟨_, h.symm⟩)
    | injection h

/-- Every success the fvwm_get_monitor_layout case returns is a single text
block. -/
theorem toolGetMonitorLayout_ok_shape {w : World} {r : ToolResult}
    (h : toolGetMonitorLayout w = .ok r) : ∃ t, r = textResult t := by
  simp only [toolGetMonitorLayout] at h
  repeat' split at h
  all_goals first
    | (injection h with h; exact ⟨_, h.symm⟩)
    | injection h

/-- Every success the fvwm_test_function case returns is a single text
block. -/
theorem toolTestFunction_ok_shape {w : World} {a : Args} {r : ToolResult}
    (h : toolTestFunction w a = .ok r) : ∃ t, r = textResult t := by
  simp only [toolTestFunction] at h
  repeat' split at h
  all_goals first
    | (injection h with h; exact ⟨_, h.symm⟩)
    | injection h

/-- Every success the fvwm_restart case returns is a single text block. -/
theorem toolRestart_ok_shape {w : World} {r : ToolResult}
    (h : toolRestart w = .ok r) : ∃ t, r = textResult t := by
  simp only [toolRestart] at h
  injection h with h
  exact ⟨_, h.symm⟩

/-- Every success the fvwm_validate_config case returns is a single text
block. -/
theorem toolValidateConfig_ok_shape {w : World} {a : Args} {r : ToolResult}
    (h : toolValidateConfig w a = .ok r) : ∃ t, r = textResult t := by
  simp only [toolValidateConfig] at h
  repeat' split at h
  all_goals (injection h with h; exact ⟨_, h.symm⟩)

/-- Every success the fvwm_get_keybindings case returns is a single text
block. -/
theorem toolGetKeybindings_ok_shape {w : World} {a : Args} {r : ToolResult}
    (h : toolGetKeybindings w a = .ok r) : ∃ t, r = textResult t := by
  simp only [toolGetKeybindings] at h
  repeat' split at h
  all_goals first
    | (injection h with h; exact ⟨_, h.symm⟩)
    | injection h

/-- Every success the smart_tile_debug case returns is a single text
block. -/
theorem toolSmartTileDebug_ok_shape {w : World} {a : Args} {r : ToolResult}
    (h : toolSmartTileDebug w a = .ok r) : ∃ t, r = textResult t := by
  simp only [toolSmartTileDebug] at h
  repeat' split at h
  all_goals (injection h with h; exact ⟨_, h.symm⟩)

/-- Every success the smart_tile_state case returns is a single text
block. -/
theorem toolSmartTileState_ok_shape {w : World} {a : Args} {r : ToolResult}
    (h : toolSmartTileState w a = .ok r) : ∃ t, r = textResult t := by
  simp only [toolSmartTileState] at h
  repeat' split at h
  all_goals first
    | (injection h with h; exact ⟨_, h.symm⟩)
    | injection h

/-- Every success the fvwm_get_desktop_info case returns is a single text
block. -/
theorem toolGetDesktopInfo_ok_shape {w : World} {r : ToolResult}
    (h : toolGetDesktopInfo w = .ok r) : ∃ t, r = textResult t := by
  simp only [toolGetDesktopInfo] at h
  repeat' split at h
  all_goals first
    | (injection h with h; exact ⟨_, h.symm⟩)
    | injection h

/-- Every success the whole dispatch switch returns is a single text
block. -/
theorem executeToolAux_ok_shape {w : World} {name : String} {a : Args} {r : ToolResult}
    (h : executeToolAux w name a = .ok r) : ∃ t, r = textResult t := by
  unfold executeToolAux at h
  by_cases h1 : name = "fvwm_execute"
  · rw [if_pos h1] at h; exact toolFvwmExecute_ok_shape h
  rw [if_neg h1] at h
  by_cases h2 : name = "fvwm_get_window_info"
  · rw [if_pos h2] at h; exact toolGetWindowInfo_ok_shape h
  rw [if_neg h2] at h
  by_cases h3 : name = "fvwm_get_monitor_layout"
  · rw [if_pos h3] at h; exact toolGetMonitorLayout_ok_shape h
  rw [if_neg h3] at h
  by_cases h4 : name = "fvwm_test_function"
  · rw [if_pos h4] at h; exact toolTestFunction_ok_shape h
  rw [if_neg h4] at h
  by_cases h5 : name = "fvwm_restart"
  · rw [if_pos h5] at h; exact toolRestart_ok_shape h
  rw [if_neg h5] at h
  by_cases h6 : name = "fvwm_validate_config"
  · rw [if_pos h6] at h; exact toolValidateConfig_ok_shape h
  rw [if_neg h6] at h
  by_cases h7 : name = "fvwm_get_keybindings"
  · rw [if_pos h7] at h; exact toolGetKeybindings_ok_shape h
  rw [if_neg h7] at h
  by_cases h8 : name = "smart_tile_debug"
  · rw [if_pos h8] at h; exact toolSmartTileDebug_ok_shape h
  rw [if_neg h8] at h
  by_cases h9 : name = "smart_tile_state"
  · rw [if_pos h9] at h; exact toolSmartTileState_ok_shape h
  rw [if_neg h9] at h
  by_cases h10 : name = "fvwm_get_desktop_info"
  · rw [if_pos h10] at h; exact toolGetDesktopInfo_ok_shape h
  rw [if_neg h10] at h
  injection h

/-- C9: whatever the tool name, the arguments and the adapter outcomes,
every result executeTool returns — error-flagged or not — carries a content
sequence of exactly one block, and that block is a text block. -/
theorem tool_result_single_text_block (w : World) (name : String) (a : Args) :
    ∃ t, (executeTool w name a).content = [Block.mk "text" t] := by
  cases hx : executeToolAux w name a with
  | ok r =>
    obtain ⟨t, rfl⟩ := executeToolAux_ok_shape hx
    exact ⟨t, by rw [executeTool_of_aux_ok hx]; rfl⟩
  | error e =>
    exact ⟨"Error executing tool '" ++ name ++ "': " ++ e.display,
      by rw [executeTool_of_aux_error hx]⟩

/-- A world whose config file reads as the one-line text `AddToMen "x`. -/
def wTypo : World :=
  { run := fun _ => .success "" "",
    fsRead := fun _ => .ok "AddToMen \"x",
    home := "/home/user" }

/-- A world whose config file reads as two clean lines. -/
def wOkCfg : World :=
  { run := fun _ => .success "" "",
    fsRead := fun _ => .ok "Key A\nStyle * SloppyFocus",
    home := "/home/user" }

/-- Dropping a prefix of elements satisfying `p` does not change the count
of an element that does not satisfy `p`. -/
theorem count_dropWhile_of_neg {p : Char → Bool} {a : Char} (h : p a = false) :
    ∀ l : List Char, (l.dropWhile p).count a = l.count a := by
  intro l
  induction l with
  | nil => rfl
  | cons c cs ih =>
    rw [List.dropWhile_cons]
    by_cases hc : p c = true
    · have hac : (c == a) = false := by
        refine beq_eq_false_iff_ne.mpr ?_
        intro e
        rw [e] at hc
        rw [hc] at h
        cases h
      rw [if_pos hc, ih, List.count_cons, hac]
      simp
    · rw [if_neg hc]

/-- Trimming a line does not change its double-quote count: quotes are not
whitespace. -/
theorem quoteCount_jsTrim (s : String) : quoteCount (jsTrim s) = quoteCount s := by
  have hq : jsIsSpace '\"' = false := by decide
  show (((s.data.dropWhile jsIsSpace).reverse.dropWhile jsIsSpace).reverse).count '\"' =
    s.data.count '\"'
  rw [List.count_reverse, count_dropWhile_of_neg hq, List.count_reverse,
    count_dropWhile_of_neg hq]

/-- A line contributes no issue exactly when its trimmed form has an even
quote count and no typo head. -/
theorem lineIssues_eq_nil (n : Nat) (l : String) :
    lineIssues n l = [] ↔
      quoteCount (jsTrim l) % 2 = 0 ∧ startsTypo (jsTrim l) = false := by
  simp only [lineIssues]
  split_ifs with hq ht <;> simp_all

/-- A line contributes one issue per offence: one for an odd quote count,
one for a typo head. -/
theorem lineIssues_length (n : Nat) (l : String) :
    (lineIssues n l).length =
      (if quoteCount (jsTrim l) % 2 ≠ 0 then 1 else 0) +
        (if startsTypo (jsTrim l) then 1 else 0) := by
  simp only [lineIssues]
  split_ifs <;> simp

/-- The validator's accumulated issue list is empty exactly when every line
passes both checks, whatever the starting line number. -/
theorem validateAux_eq_nil (ls : List String) :
    ∀ n, (validateAux n ls = [] ↔
      ∀ l ∈ ls, quoteCount (jsTrim l) % 2 = 0 ∧ startsTypo (jsTrim l) = false) := by
  induction ls with
  | nil => intro n; simp [validateAux]
  | cons l ls ih =>
    intro n
    simp only [validateAux, List.append_eq_nil, lineIssues_eq_nil, ih (n + 1), List.mem_cons]
    constructor
    · rintro ⟨h1, h2⟩ x hx
      rcases hx with rfl | hx
      · exact h1
      · exact h2 x hx
    · intro hall
      exact ⟨hall l (Or.inl rfl), fun x hx => hall x (Or.inr hx)⟩

/-- The validator reports one issue per offence: its issue count is the
number of odd-quote lines plus the number of typo lines. -/
theorem validateAux_length (ls : List String) :
    ∀ n, (validateAux n ls).length =
      (ls.filter (fun l => decide (quoteCount (jsTrim l) % 2 ≠ 0))).length +
        (ls.filter (fun l => startsTypo (jsTrim l))).length := by
  induction ls with
  | nil => intro n; simp [validateAux]
  | cons l ls ih =>
    intro n
    rw [validateAux, List.length_append, lineIssues_length, ih (n + 1),
      List.filter_cons, List.filter_cons]
    by_cases h1 : quoteCount (jsTrim l) % 2 ≠ 0 <;>
      by_cases h2 : startsTypo (jsTrim l) = true <;>
        simp [h1, h2] <;> omega

/-- C10 counterexample: the single line `AddToMen "x` offends both checks,
so the validator reports two issues for one offending line — not one issue
per offending line. -/
theorem validate_config_two_issues_cex :
    (jsSplitChar '\n' "AddToMen \"x").length = 1 ∧
    validateErrors "AddToMen \"x" =
      ["Line 1: Unmatched double quotes", "Line 1: Possible typo in command"] ∧
    executeTool wTypo "fvwm_validate_config" noArgs =
      textResult
        "Found 2 potential issues:\nLine 1: Unmatched double quotes\nLine 1: Possible typo in command" := by
  refine ⟨rfl, by decide, by decide⟩

/-- C10 (amended): when the configuration file is readable,
fvwm_validate_config reports the configuration valid (with the checked line
count) if and only if every line has an even number of double quotes and no
line, after trimming, begins with a typo head followed by whitespace;
otherwise it reports one issue per offence — a line failing both checks
yields two issues — each identified by its 1-based line number. -/
theorem validate_config_report (w : World) (a : Args) (content : String)
    (hp : truthy (a "config_path") = false)
    (hr : w.fsRead (pjoin w.home ".fvwm/config") = .ok content) :
    executeTool w "fvwm_validate_config" a =
      textResult
        (if (validateErrors content).length = 0 then
          "Configuration appears valid (" ++ toString (jsSplitChar '\n' content).length ++
            " lines checked)"
        else
          "Found " ++ toString (validateErrors content).length ++ " potential issues:\n" ++
            String.intercalate "\n" (validateErrors content)) ∧
    (validateErrors content = [] ↔
      ∀ l ∈ jsSplitChar '\n' content,
        quoteCount l % 2 = 0 ∧ startsTypo (jsTrim l) = false) ∧
    (validateErrors content).length =
      ((jsSplitChar '\n' content).filter (fun l => decide (quoteCount l % 2 ≠ 0))).length +
        ((jsSplitChar '\n' content).filter (fun l => startsTypo (jsTrim l))).length := by
  refine ⟨?_, ?_, ?_⟩
  · have hx : executeToolAux w "fvwm_validate_config" a = toolValidateConfig w a := rfl
    have hb : toolValidateConfig w a =
        .ok (textResult
          (if (validateErrors content).length = 0 then
            "Configuration appears valid (" ++ toString (jsSplitChar '\n' content).length ++
              " lines checked)"
          else
            "Found " ++ toString (validateErrors content).length ++ " potential issues:\n" ++
              String.intercalate "\n" (validateErrors content))) := by
      unfold toolValidateConfig
      rw [hp]
      simp only [Bool.false_eq_true, if_false]
      rw [hr]
    exact executeTool_of_aux_ok (hx.trans hb)
  · have h := validateAux_eq_nil (jsSplitChar '\n' content) 1
    simp only [quoteCount_jsTrim] at h
    exact h
  · have h := validateAux_length (jsSplitChar '\n' content) 1
    simp only [quoteCount_jsTrim] at h
    exact h

/-- C10 witness: a clean two-line configuration is reported valid with its
line count. -/
theorem validate_config_report_witness :
    executeTool wOkCfg "fvwm_validate_config" noArgs =
      textResult "Configuration appears valid (2 lines checked)" := by
  have h := (validate_config_report wOkCfg noArgs "Key A\nStyle * SloppyFocus" rfl rfl).1
  rw [h]
  rfl

/-- The catalog uris whose handlers contain no inner catch: on adapter
failure they rethrow to the outer wrapper. The two remaining catalog uris
(fvwm://state/tile-states and fvwm://logs/smart-tile) swallow adapter
failures instead. -/
def strictResourceUris : List String :=
  ["fvwm://config/main", "fvwm://config/repo", "fvwm://docs/claude",
   "fvwm://docs/shortcuts", "fvwm://docs/smart-tiling", "fvwm://docs/readme",
   "fvwm://scripts/smart-tile", "fvwm://scripts/maximize-monitor",
   "fvwm://scripts/monitor-setup", "fvwm://scripts/toggle-keyboard",
   "fvwm://state/monitors", "fvwm://state/windows", "fvwm://state/current-desktop"]

/-- C3 counterexample: fvwm://logs/smart-tile is in the catalog, its file
adapter fails in this world, and yet readResource returns a success result
("No debug log found") in place of the failure. -/
theorem adapter_failure_swallowed_cex :
    ("fvwm://logs/smart-tile" ∈ resourceUris) ∧
    (∀ p, wAllFail.fsRead p = .error "ENOENT") ∧
    (readResource wAllFail "fvwm://logs/smart-tile").1 =
      .ok ⟨[⟨"fvwm://logs/smart-tile", "text/plain", "No debug log found"⟩]⟩ :=
  ⟨by decide, fun _ => rfl, rfl⟩

/-- C3 (amended): for every catalog uri except fvwm://state/tile-states and
fvwm://logs/smart-tile, an adapter failure makes readResource fail with the
wrapped error carrying the underlying message, after exactly one adapter
invocation (no retry) and with no success result substituted; for the two
excepted uris the failure is swallowed into a success envelope (the empty
JSON object, resp. the text "No debug log found"). -/
theorem adapter_failure_propagation (w : World) (uri m : String)
    (hu : uri ∈ strictResourceUris)
    (hf : ∀ p, w.fsRead p = .error m)
    (hr : ∀ c, w.run c = .failure ⟨m, ""⟩) :
    ((readResource w uri).1 =
        .error ("Failed to read resource " ++ uri ++ ": " ++ ("Error: " ++ m)) ∧
      (readResource w uri).2.length = 1) ∧
    (readResource w "fvwm://state/tile-states").1 =
      .ok ⟨[⟨"fvwm://state/tile-states", "application/json", "\x7b\x7d"⟩]⟩ ∧
    (readResource w "fvwm://logs/smart-tile").1 =
      .ok ⟨[⟨"fvwm://logs/smart-tile", "text/plain", "No debug log found"⟩]⟩ := by
  refine ⟨?_, ?_, ?_⟩
  · fin_cases hu <;>
      simp [readResource, readResourceAux, readFileRes, hf, hr, JsErr.display]
  · have h1 : readResourceAux w "fvwm://state/tile-states" =
        tileStatesRes w "fvwm://state/tile-states" := rfl
    have h2 : tileStatesRes w "fvwm://state/tile-states" =
        (.ok ⟨[⟨"fvwm://state/tile-states", "application/json", jsonRecord []⟩]⟩,
          [.run ("ls " ++ pjoin w.home ".fvwm/tile-state")]) := by
      simp only [tileStatesRes]
      rw [hr]
    simp [readResource, h1, h2, jsonRecord]
  · have h1 : readResourceAux w "fvwm://logs/smart-tile" =
        (match w.fsRead (pjoin w.home ".fvwm/smart-tile-debug.log") with
         | .ok c => .ok ⟨[⟨"fvwm://logs/smart-tile", "text/plain", c⟩]⟩
         | .error _ => .ok ⟨[⟨"fvwm://logs/smart-tile", "text/plain", "No debug log found"⟩]⟩,
         [.fsRead (pjoin w.home ".fvwm/smart-tile-debug.log")]) := rfl
    rw [show (readResource w "fvwm://logs/smart-tile") =
        (match readResourceAux w "fvwm://logs/smart-tile" with
         | (.ok v, calls) => (.ok v, calls)
         | (.error e, calls) =>
           (.error ("Failed to read resource " ++ "fvwm://logs/smart-tile" ++ ": " ++ e.display),
             calls)) from rfl, h1, hf]

/-- C3 witness: the amended behavior at a concrete strict uri in the
all-failing world. -/
theorem adapter_failure_propagation_witness :
    (readResource wAllFail "fvwm://config/main").1 =
      .error ("Failed to read resource " ++ "fvwm://config/main" ++ ": " ++ ("Error: " ++ "ENOENT")) ∧
    (readResource wAllFail "fvwm://config/main").2.length = 1 :=
  (adapter_failure_propagation wAllFail "fvwm://config/main" "ENOENT" (by decide)
    (fun _ => rfl) (fun _ => rfl)).1
